import Mathlib

/-!
Shallow embedding of the lesson quiz engine of the think-alquran app
(the lesson screen: startQuiz, handleAnswerSelect, handleSubmitAnswer,
handleNextQuestion, completeLesson).

The source shuffles arrays with sort over a random comparator and reads
ambient Math.random values.  A sort invocation always returns some
permutation of its input, so the ambient randomness is modelled as two
injected families of list transformations, one for the distractor pool
of each word and one for the combined option list of each word; the
theorems that depend on the randomness assume that each transformation
permutes its input.  Wall-clock readings (Date.now) are modelled as
explicit elapsed-seconds arguments.  The React state of the screen
becomes a plain state record; the alert shown on a missing selection
and the runtime error on an out-of-range question index become Option
results.
-/

/-- Vocabulary item as delivered by the lessons API (source interface Word). -/
structure Word where
  id : String
  arabic : String
  transliteration : String
  meaning : String
deriving DecidableEq

/-- Generated question (source interface QuizQuestion). -/
structure QuizQuestion where
  word : Word
  options : List String
  correctAnswer : String
deriving DecidableEq

/-- Recorded answer, as pushed into the answers state and posted on
completion (fields word_id, is_correct, time_spent of the source). -/
structure Answer where
  word_id : String
  is_correct : Bool
  time_spent : Nat
deriving DecidableEq

/-- The React state of the lesson screen that the quiz flow reads and
writes: currentQuestion, selectedAnswer, showResult, score, answers. -/
structure SessionState where
  currentQuestion : Nat
  selectedAnswer : Option String
  showResult : Bool
  score : Nat
  answers : List Answer
deriving DecidableEq

/-- Body of the POST to api/lessons/complete issued by completeLesson. -/
structure CompletionPayload where
  lesson_id : String
  answers : List Answer
  total_time : Nat
deriving DecidableEq

/-- Distractor pool of one word: the meanings of every word with a
different id.  Source: words.filter(w => w.id !== word.id).map(w => w.meaning). -/
def poolOf (words : List Word) (w : Word) : List String :=
  (words.filter fun x => x.id ≠ w.id).map Word.meaning

/-- One generated question, the body of the map inside startQuiz: shuffle
the pool, keep the first three entries, append the correct meaning and
shuffle again.  sp and so stand for the outcomes of the two random sort
invocations of the source. -/
def mkQuestion (words : List Word) (sp so : List String → List String) (w : Word) : QuizQuestion :=
  { word := w
    options := so ((sp (poolOf words w)).take 3 ++ [w.meaning])
    correctAnswer := w.meaning }

/-- The question generation loop of startQuiz: one question per word, in
input order. -/
def generateQuestions (words : List Word) (sp so : Word → List String → List String) : List QuizQuestion :=
  words.map fun w => mkQuestion words (sp w) (so w) w

/-- Full observable effect of startQuiz: the generated question list and
quizMode set to true.  The source performs no validation of the word
list before entering quiz mode. -/
def startQuiz (words : List Word) (sp so : Word → List String → List String) : List QuizQuestion × Bool :=
  (generateQuestions words sp so, true)

/-- handleAnswerSelect: the selection is ignored once the result is shown. -/
def handleAnswerSelect (answer : String) (s : SessionState) : SessionState :=
  if s.showResult then s else { s with selectedAnswer := some answer }

/-- handleSubmitAnswer.  A missing selection only shows an alert and leaves
the state unchanged (modelled as some s).  An out-of-range question index
dereferences undefined in the source, a runtime error modelled as none.
The source has no guard on showResult, so the function itself accepts a
repeated submission for the same question. -/
def handleSubmitAnswer (questions : List QuizQuestion) (timeSpent : Nat) (s : SessionState) : Option SessionState :=
  match s.selectedAnswer with
  | none => some s
  | some sel =>
    match questions[s.currentQuestion]? with
    | none => none
    | some question =>
      some { s with
              score := if sel == question.correctAnswer then s.score + 1 else s.score,
              answers := s.answers ++
                [{ word_id := question.word.id,
                   is_correct := sel == question.correctAnswer,
                   time_spent := timeSpent }],
              showResult := true }

/-- completeLesson: posts the stored answers with one more entry rebuilt
from the current question and the current selection, under the constant
total_time 900.  The source comparison selectedAnswer === correctAnswer
is false when nothing is selected, which the Option equality mirrors. -/
def completeLesson (lessonId : String) (questions : List QuizQuestion) (timeSpent : Nat) (s : SessionState) : Option CompletionPayload :=
  match questions[s.currentQuestion]? with
  | none => none
  | some question =>
    some { lesson_id := "lesson_" ++ lessonId,
           answers := s.answers ++
             [{ word_id := question.word.id,
                is_correct := s.selectedAnswer == some question.correctAnswer,
                time_spent := timeSpent }],
           total_time := 900 }

/-- handleNextQuestion: below the last index it advances and clears the
selection and result flag, otherwise it completes the lesson.  No
precondition on the session state is checked. -/
def handleNextQuestion (lessonId : String) (questions : List QuizQuestion) (timeSpent : Nat) (s : SessionState) : SessionState ⊕ Option CompletionPayload :=
  if s.currentQuestion < questions.length - 1 then
    Sum.inl { s with currentQuestion := s.currentQuestion + 1,
                     selectedAnswer := none,
                     showResult := false }
  else
    Sum.inr (completeLesson lessonId questions timeSpent s)

/-- Shuffle outcome in which the random comparator kept the input order. -/
def idEnv : Word → List String → List String := fun _ l => l

/-- Shuffle outcome in which the random comparator reversed the input. -/
def revEnv : Word → List String → List String := fun _ l => l.reverse

/-- A transformation pointwise equal to idEnv, written differently; used to
instantiate the congruence theorem. -/
def takeEnv : Word → List String → List String := fun _ l => l.take l.length

def w1 : Word := { id := "w1", arabic := "a1", transliteration := "t1", meaning := "God" }

def w2 : Word := { id := "w2", arabic := "a2", transliteration := "t2", meaning := "Lord" }

def demoWords : List Word := [w1, w2]

def demoQuestions : List QuizQuestion := generateQuestions demoWords idEnv idEnv

/-- First question generated from demoWords under the order-keeping outcome. -/
def demoQ1 : QuizQuestion := { word := w1, options := ["Lord", "God"], correctAnswer := "God" }

/-- Two words with distinct ids sharing one meaning string. -/
def dupWords : List Word :=
  [{ id := "w1", arabic := "a1", transliteration := "t1", meaning := "X" },
   { id := "w2", arabic := "a2", transliteration := "t2", meaning := "X" }]

/-- Four words sharing a single id. -/
def dupIdWords : List Word :=
  [{ id := "a", arabic := "a1", transliteration := "t1", meaning := "m1" },
   { id := "a", arabic := "a2", transliteration := "t2", meaning := "m2" },
   { id := "a", arabic := "a3", transliteration := "t3", meaning := "m3" },
   { id := "a", arabic := "a4", transliteration := "t4", meaning := "m4" }]

/-- A full four-word lesson with distinct ids and meanings. -/
def demo4 : List Word :=
  [{ id := "w1", arabic := "a1", transliteration := "t1", meaning := "God" },
   { id := "w2", arabic := "a2", transliteration := "t2", meaning := "Lord" },
   { id := "w3", arabic := "a3", transliteration := "t3", meaning := "Merciful" },
   { id := "w4", arabic := "a4", transliteration := "t4", meaning := "Compassionate" }]

/-- First question generated from demo4 under the order-keeping outcome. -/
def demoQ4 : QuizQuestion :=
  { word := { id := "w1", arabic := "a1", transliteration := "t1", meaning := "God" },
    options := ["Lord", "Merciful", "Compassionate", "God"],
    correctAnswer := "God" }

/-- A complete two-question session in which each question is answered
exactly once: select, submit, advance, select, submit, complete.  The
elapsed seconds are 5 and 3 for the two submissions and 7 at completion
time (the source recomputes the elapsed time when it completes). -/
def runDemoSession : Option CompletionPayload :=
  match handleSubmitAnswer demoQuestions 5
      (handleAnswerSelect "God" { currentQuestion := 0, selectedAnswer := none,
                                  showResult := false, score := 0, answers := [] }) with
  | none => none
  | some s2 =>
    match handleNextQuestion "1" demoQuestions 0 s2 with
    | Sum.inr p => p
    | Sum.inl s3 =>
      match handleSubmitAnswer demoQuestions 3 (handleAnswerSelect "Lord" s3) with
      | none => none
      | some s5 =>
        match handleNextQuestion "1" demoQuestions 7 s5 with
        | Sum.inr p => p
        | Sum.inl _ => none

theorem poolOf_sublist (words : List Word) (w : Word) :
    (poolOf words w).Sublist (words.map Word.meaning) :=
  List.Sublist.map Word.meaning (List.filter_sublist words)

theorem poolOf_nodup (words : List Word) (w : Word)
    (hm : (words.map Word.meaning).Nodup) : (poolOf words w).Nodup :=
  List.Nodup.sublist (poolOf_sublist words w) hm

theorem meaning_not_mem_poolOf (w : Word) :
    ∀ words : List Word, w ∈ words → (words.map Word.meaning).Nodup →
      w.meaning ∉ poolOf words w := by
  intro words
  induction words with
  | nil => intro h; exact absurd h (List.not_mem_nil w)
  | cons b l ih =>
    intro hmem hnd
    rw [List.map_cons, List.nodup_cons] at hnd
    obtain ⟨hbnot, hndl⟩ := hnd
    by_cases hid : b.id = w.id
    · have hpool : poolOf (b :: l) w = poolOf l w := by
        simp [poolOf, List.filter_cons, hid]
      rw [hpool]
      rcases List.mem_cons.mp hmem with rfl | hwl
      · exact fun hmm => hbnot ((poolOf_sublist l w).subset hmm)
      · exact ih hwl hndl
    · have hpool : poolOf (b :: l) w = b.meaning :: poolOf l w := by
        simp [poolOf, List.filter_cons, hid]
      rw [hpool]
      have hwb : w ≠ b := fun h => hid (h ▸ rfl)
      have hwl : w ∈ l := by
        rcases List.mem_cons.mp hmem with h | h
        · exact absurd h hwb
        · exact h
      intro hmm
      rcases List.mem_cons.mp hmm with h | h
      · exact hbnot (h ▸ List.mem_map_of_mem Word.meaning hwl)
      · exact ih hwl hndl h

theorem poolOf_length (w : Word) :
    ∀ words : List Word, w ∈ words → (words.map Word.id).Nodup →
      (poolOf words w).length + 1 = words.length := by
  intro words
  induction words with
  | nil => intro h; exact absurd h (List.not_mem_nil w)
  | cons b l ih =>
    intro hmem hnd
    rw [List.map_cons, List.nodup_cons] at hnd
    obtain ⟨hbnot, hndl⟩ := hnd
    rcases List.mem_cons.mp hmem with rfl | hwl
    · have hall : ∀ x ∈ l, x.id ≠ w.id := by
        intro x hx h
        exact hbnot (h ▸ List.mem_map_of_mem Word.id hx)
      have hpool : poolOf (w :: l) w = l.map Word.meaning := by
        simp only [poolOf, List.filter_cons]
        rw [if_neg (by simp)]
        rw [List.filter_eq_self.mpr (by intro a ha; simpa using hall a ha)]
      rw [hpool]
      simp
    · have hbne : b.id ≠ w.id := by
        intro h
        exact hbnot (h ▸ List.mem_map_of_mem Word.id hwl)
      have hpool : poolOf (b :: l) w = b.meaning :: poolOf l w := by
        simp [poolOf, List.filter_cons, hbne]
      rw [hpool]
      have h2 := ih hwl hndl
      simp only [List.length_cons]
      omega

/-- Claim C1, counterexample: with two items of distinct ids sharing the
meaning X, every generated question lists X twice among its options, so
the correct answer does not appear exactly once and the options are not
duplicate-free. -/
theorem generateQuestions_duplicate_meaning_breaks_options :
    ((generateQuestions dupWords idEnv idEnv).map fun q => q.options) = [["X", "X"], ["X", "X"]] ∧
    ((generateQuestions dupWords idEnv idEnv).map fun q => q.options.count q.correctAnswer) = [2, 2] := by
  decide

/-- Claim C1, amended: when the meaning strings of the input items are
pairwise distinct, every question generated by startQuiz has its correct
answer exactly once among the options and the options hold no duplicate
strings, for any shuffle outcomes that permute their input. -/
theorem generateQuestions_option_validity
    (words : List Word) (sp so : Word → List String → List String) (q : QuizQuestion)
    (hsp : ∀ w l, (sp w l).Perm l) (hso : ∀ w l, (so w l).Perm l)
    (hm : (words.map Word.meaning).Nodup)
    (hq : q ∈ generateQuestions words sp so) :
    q.options.count q.correctAnswer = 1 ∧ q.options.Nodup := by
  simp only [generateQuestions, List.mem_map] at hq
  obtain ⟨w, hw, rfl⟩ := hq
  have hpoolnd : (poolOf words w).Nodup := poolOf_nodup words w hm
  have hnm : w.meaning ∉ poolOf words w := meaning_not_mem_poolOf w words hw hm
  have hspp := hsp w (poolOf words w)
  have htake : ((sp w (poolOf words w)).take 3).Sublist (sp w (poolOf words w)) :=
    List.take_sublist 3 _
  have hwrnd : ((sp w (poolOf words w)).take 3).Nodup :=
    List.Nodup.sublist htake (hspp.nodup_iff.mpr hpoolnd)
  have hwrnm : w.meaning ∉ (sp w (poolOf words w)).take 3 :=
    fun h => hnm (hspp.mem_iff.mp (htake.subset h))
  have hbase : ((sp w (poolOf words w)).take 3 ++ [w.meaning]).Nodup := by
    rw [List.nodup_append]
    refine ⟨hwrnd, List.nodup_singleton _, ?_⟩
    intro a ha hb
    rw [List.mem_singleton] at hb
    exact hwrnm (hb ▸ ha)
  have hsoo := hso w ((sp w (poolOf words w)).take 3 ++ [w.meaning])
  constructor
  · simp only [mkQuestion]
    rw [hsoo.count_eq, List.count_append, List.count_eq_zero.mpr hwrnm]
    simp
  · simp only [mkQuestion]
    exact hsoo.nodup_iff.mpr hbase

/-- Claim C1, witness: the amended theorem applied to the two-word demo
lesson with distinct meanings under the order-keeping shuffle outcome. -/
theorem generateQuestions_option_validity_witness :
    demoQ1.options.count demoQ1.correctAnswer = 1 ∧ demoQ1.options.Nodup :=
  generateQuestions_option_validity demoWords idEnv idEnv demoQ1
    (fun _ l => List.Perm.refl l) (fun _ l => List.Perm.refl l)
    (by decide) (by decide)

/-- Claim C8, counterexample: four items sharing one id leave every
distractor pool empty, so each generated question has a single option
rather than four. -/
theorem generateQuestions_duplicate_ids_short_options :
    dupIdWords.length = 4 ∧
    ((generateQuestions dupIdWords idEnv idEnv).map fun q => q.options.length) = [1, 1, 1, 1] := by
  decide

/-- Claim C8, amended: for an input list of at least four items with
pairwise distinct ids, startQuiz yields one question per item, and every
generated question carries exactly four options among which its correct
answer, the meaning of its own word. -/
theorem generateQuestions_four_options
    (words : List Word) (sp so : Word → List String → List String) (q : QuizQuestion)
    (hsp : ∀ w l, (sp w l).Perm l) (hso : ∀ w l, (so w l).Perm l)
    (hid : (words.map Word.id).Nodup) (h4 : 4 ≤ words.length)
    (hq : q ∈ generateQuestions words sp so) :
    (generateQuestions words sp so).length = words.length ∧
    q.options.length = 4 ∧ q.correctAnswer = q.word.meaning ∧ q.correctAnswer ∈ q.options := by
  have hlen : (generateQuestions words sp so).length = words.length := by
    simp [generateQuestions]
  simp only [generateQuestions, List.mem_map] at hq
  obtain ⟨w, hw, rfl⟩ := hq
  have hpl := poolOf_length w words hw hid
  have h3 : 3 ≤ (poolOf words w).length := by omega
  have hspp := hsp w (poolOf words w)
  have hsoo := hso w ((sp w (poolOf words w)).take 3 ++ [w.meaning])
  refine ⟨hlen, ?_, rfl, ?_⟩
  · simp only [mkQuestion]
    rw [hsoo.length_eq, List.length_append, List.length_take, hspp.length_eq]
    rw [Nat.min_eq_left h3, List.length_singleton]
  · simp only [mkQuestion]
    exact hsoo.mem_iff.mpr (List.mem_append_right _ (List.mem_singleton_self _))

/-- Claim C8, witness: the amended theorem applied to the four-word demo
lesson under the order-keeping shuffle outcome. -/
theorem generateQuestions_four_options_witness :
    (generateQuestions demo4 idEnv idEnv).length = demo4.length ∧
    demoQ4.options.length = 4 ∧ demoQ4.correctAnswer = demoQ4.word.meaning ∧
    demoQ4.correctAnswer ∈ demoQ4.options :=
  generateQuestions_four_options demo4 idEnv idEnv demoQ4
    (fun _ l => List.Perm.refl l) (fun _ l => List.Perm.refl l)
    (by decide) (by decide) (by decide)

/-- Claim C10: question generation maps the word list in order, so the
question at index i is built from the item at index i, its word is that
item and its correct answer is that item meaning, whatever the shuffle
outcomes are. -/
theorem generateQuestions_preserves_order
    (words : List Word) (sp so : Word → List String → List String)
    (_hne : words ≠ []) (i : Nat) (w : Word) (hi : words[i]? = some w) :
    ((generateQuestions words sp so)[i]?.map QuizQuestion.word) = some w ∧
    ((generateQuestions words sp so)[i]?.map QuizQuestion.correctAnswer) = some w.meaning := by
  simp [generateQuestions, List.getElem?_map, hi, mkQuestion]

/-- Claim C10, witness: order preservation instantiated at index zero of
the two-word demo lesson. -/
theorem generateQuestions_preserves_order_witness :
    ((generateQuestions demoWords idEnv idEnv)[0]?.map QuizQuestion.word) = some w1 ∧
    ((generateQuestions demoWords idEnv idEnv)[0]?.map QuizQuestion.correctAnswer) = some w1.meaning :=
  generateQuestions_preserves_order demoWords idEnv idEnv (by decide) 0 w1 (by decide)

/-- Claim C9, counterexample: startQuiz has no random-source parameter;
its outcome is tied to the ambient Math.random draws.  On one and the
same item list, the order-keeping ambient outcome and the reversing
ambient outcome, both permutations, produce different question
sequences, so the item list alone does not determine the output. -/
theorem generateQuestions_ambient_randomness_varies :
    generateQuestions demoWords idEnv idEnv ≠ generateQuestions demoWords idEnv revEnv := by
  decide

/-- Claim C9, amended: the generation is a pure function of the item list
and the ambient shuffle outcomes: whenever two families of outcomes agree
pointwise on the words of the list, the produced question sequences are
identical.  No injectable seed exists in the source; only fixing the
ambient outcomes reproduces a run. -/
theorem generateQuestions_congr
    (words : List Word) (sp₁ sp₂ so₁ so₂ : Word → List String → List String)
    (h1 : ∀ w ∈ words, ∀ l, sp₁ w l = sp₂ w l)
    (h2 : ∀ w ∈ words, ∀ l, so₁ w l = so₂ w l) :
    generateQuestions words sp₁ so₁ = generateQuestions words sp₂ so₂ := by
  simp only [generateQuestions]
  refine List.map_congr_left fun w hw => ?_
  simp only [mkQuestion]
  rw [h1 w hw, h2 w hw]

/-- Claim C9, witness: the congruence applied to the demo lesson and two
syntactically different but pointwise equal outcome families. -/
theorem generateQuestions_congr_witness :
    generateQuestions demoWords idEnv idEnv = generateQuestions demoWords takeEnv takeEnv :=
  generateQuestions_congr demoWords idEnv takeEnv idEnv takeEnv
    (fun _ _ l => (List.take_length l).symm) (fun _ _ l => (List.take_length l).symm)

/-- Claim C4: in AwaitingAnswer (result not yet shown) with a selected
answer and a valid question index, handleSubmitAnswer computes
correctness by string equality with the correct answer of the current
question, adds one point exactly when correct, appends exactly one
answer record carrying that outcome, keeps the index, and moves to the
answer-submitted state (showResult true). -/
theorem handleSubmitAnswer_effect
    (questions : List QuizQuestion) (t : Nat) (s : SessionState)
    (sel : String) (q : QuizQuestion)
    (_hres : s.showResult = false) (hsel : s.selectedAnswer = some sel)
    (hq : questions[s.currentQuestion]? = some q) :
    handleSubmitAnswer questions t s =
      some { s with
              score := if sel == q.correctAnswer then s.score + 1 else s.score,
              answers := s.answers ++
                [{ word_id := q.word.id,
                   is_correct := sel == q.correctAnswer,
                   time_spent := t }],
              showResult := true } := by
  unfold handleSubmitAnswer
  rw [hsel, hq]

/-- Claim C4, witness: submitting the correct answer God on the first demo
question from the fresh state adds the point and the single record. -/
theorem handleSubmitAnswer_effect_witness :
    handleSubmitAnswer demoQuestions 5
        { currentQuestion := 0, selectedAnswer := some "God", showResult := false,
          score := 0, answers := [] } =
      some { currentQuestion := 0, selectedAnswer := some "God", showResult := true,
             score := 1, answers := [{ word_id := "w1", is_correct := true, time_spent := 5 }] } :=
  (handleSubmitAnswer_effect demoQuestions 5
      { currentQuestion := 0, selectedAnswer := some "God", showResult := false,
        score := 0, answers := [] }
      "God" demoQ1 rfl rfl (by decide)).trans (by decide)

/-- Claim C3, counterexample: from a state in which the first demo question
was already submitted (showResult true, one stored answer, score one), a
second call to handleSubmitAnswer does not fail: it returns a state with
two stored answers and score two. -/
theorem handleSubmitAnswer_double_submit_appends :
    (handleSubmitAnswer demoQuestions 9
        { currentQuestion := 0, selectedAnswer := some "God", showResult := true,
          score := 1, answers := [{ word_id := "w1", is_correct := true, time_spent := 9 }] }).map
      (fun s => (s.answers.length, s.score)) = some (2, 2) := by
  decide

/-- Claim C3, amended: handleSubmitAnswer carries no state guard.  Called
again before advancing, while the answer of the current question is still
selected, it appends a second answer record for the same question and
increments the score once more when that answer is correct; no error
state exists.  Only the interface hides the submit button after the
first submission. -/
theorem handleSubmitAnswer_no_state_guard
    (questions : List QuizQuestion) (t : Nat) (s : SessionState)
    (sel : String) (q : QuizQuestion)
    (_hres : s.showResult = true) (hsel : s.selectedAnswer = some sel)
    (hq : questions[s.currentQuestion]? = some q) :
    handleSubmitAnswer questions t s =
      some { s with
              score := if sel == q.correctAnswer then s.score + 1 else s.score,
              answers := s.answers ++
                [{ word_id := q.word.id,
                   is_correct := sel == q.correctAnswer,
                   time_spent := t }],
              showResult := true } := by
  unfold handleSubmitAnswer
  rw [hsel, hq]

/-- Claim C3, witness: the no-guard theorem applied to the already
submitted demo state; the duplicate record is appended and the score
grows to two. -/
theorem handleSubmitAnswer_no_state_guard_witness :
    handleSubmitAnswer demoQuestions 9
        { currentQuestion := 0, selectedAnswer := some "God", showResult := true,
          score := 1, answers := [{ word_id := "w1", is_correct := true, time_spent := 5 }] } =
      some { currentQuestion := 0, selectedAnswer := some "God", showResult := true,
             score := 2, answers := [{ word_id := "w1", is_correct := true, time_spent := 5 },
                                     { word_id := "w1", is_correct := true, time_spent := 9 }] } :=
  (handleSubmitAnswer_no_state_guard demoQuestions 9
      { currentQuestion := 0, selectedAnswer := some "God", showResult := true,
        score := 1, answers := [{ word_id := "w1", is_correct := true, time_spent := 5 }] }
      "God" demoQ1 rfl rfl (by decide)).trans (by decide)

/-- Claim C7, counterexample: on the fresh two-question demo session with
no answer submitted, handleNextQuestion does not fail: it advances the
index from zero to one. -/
theorem handleNextQuestion_advances_without_submit :
    handleNextQuestion "1" demoQuestions 0
        { currentQuestion := 0, selectedAnswer := none, showResult := false,
          score := 0, answers := [] } =
      Sum.inl { currentQuestion := 1, selectedAnswer := none, showResult := false,
                score := 0, answers := [] } := by
  decide

/-- Claim C7, amended: handleNextQuestion checks no precondition.  From an
awaiting state (nothing selected, result not shown) below the last index
it advances to the next question without any error; at the last index it
would instead complete the lesson, fabricating a record for the
unanswered question. -/
theorem handleNextQuestion_no_state_guard
    (lessonId : String) (questions : List QuizQuestion) (t : Nat) (s : SessionState)
    (_hsel : s.selectedAnswer = none) (_hres : s.showResult = false)
    (hlt : s.currentQuestion < questions.length - 1) :
    handleNextQuestion lessonId questions t s =
      Sum.inl { s with currentQuestion := s.currentQuestion + 1,
                       selectedAnswer := none,
                       showResult := false } := by
  unfold handleNextQuestion
  rw [if_pos hlt]

/-- Claim C7, witness: the no-guard theorem applied to a fresh demo
session. -/
theorem handleNextQuestion_no_state_guard_witness :
    handleNextQuestion "2" demoQuestions 4
        { currentQuestion := 0, selectedAnswer := none, showResult := false,
          score := 0, answers := [] } =
      Sum.inl { currentQuestion := 1, selectedAnswer := none, showResult := false,
                score := 0, answers := [] } :=
  (handleNextQuestion_no_state_guard "2" demoQuestions 4
      { currentQuestion := 0, selectedAnswer := none, showResult := false,
        score := 0, answers := [] }
      rfl rfl (by decide)).trans (by decide)

/-- Claim C6, counterexample: startQuiz on the empty word list raises
nothing; it produces the empty question list and still enters quiz mode. -/
theorem startQuiz_empty_counterexample :
    startQuiz [] idEnv idEnv = ([], true) := rfl

/-- Claim C6, amended: for every ambient shuffle outcome, startQuiz on an
empty item list produces an empty question sequence and sets quizMode,
starting a zero-question quiz; no validation error exists in the code. -/
theorem startQuiz_empty_no_error
    (sp so : Word → List String → List String) :
    startQuiz [] sp so = ([], true) := rfl

/-- Claim C2: on the two-question demo session in which each question was
answered exactly once, completion posts three answer records, the final
question appearing twice: handleSubmitAnswer stored its record and
completeLesson appends a rebuilt copy once more. -/
theorem runDemoSession_posts_duplicate_final_response :
    demoQuestions.length = 2 ∧
    (runDemoSession.map fun p => p.answers.map Answer.word_id) = some ["w1", "w2", "w2"] ∧
    (runDemoSession.map fun p => p.answers.length) = some 3 := by
  decide

/-- Claim C5, counterexample: the completed demo session posts total_time
900 while the elapsed seconds of the posted records sum to fifteen. -/
theorem completeLesson_total_time_not_sum :
    (runDemoSession.map fun p => p.total_time) = some 900 ∧
    (runDemoSession.map fun p => (p.answers.map Answer.time_spent).sum) = some 15 := by
  decide

/-- Claim C5, amended: every payload produced by completeLesson carries the
hard-coded total_time 900, independent of the recorded elapsed seconds;
no score percentage is computed in the payload. -/
theorem completeLesson_total_time_constant
    (lessonId : String) (questions : List QuizQuestion) (t : Nat)
    (s : SessionState) (p : CompletionPayload)
    (h : completeLesson lessonId questions t s = some p) :
    p.total_time = 900 := by
  unfold completeLesson at h
  split at h
  · exact Option.noConfusion h
  · injection h with h2
    subst h2
    rfl

/-- Claim C5, witness: the constant total_time theorem applied to the
completed demo session. -/
theorem completeLesson_total_time_constant_witness :
    (CompletionPayload.mk "lesson_1"
        [{ word_id := "w1", is_correct := true, time_spent := 5 },
         { word_id := "w2", is_correct := true, time_spent := 3 },
         { word_id := "w2", is_correct := true, time_spent := 7 }] 900).total_time = 900 :=
  completeLesson_total_time_constant "1" demoQuestions 7
    { currentQuestion := 1, selectedAnswer := some "Lord", showResult := true,
      score := 2, answers := [{ word_id := "w1", is_correct := true, time_spent := 5 },
                              { word_id := "w2", is_correct := true, time_spent := 3 }] }
    (CompletionPayload.mk "lesson_1"
        [{ word_id := "w1", is_correct := true, time_spent := 5 },
         { word_id := "w2", is_correct := true, time_spent := 3 },
         { word_id := "w2", is_correct := true, time_spent := 7 }] 900)
    (by decide)
